import Mathlib

/-!
# Résumé page script (`static/js/main.js`): theme manager and PDF export trigger

A shallow embedding of the `DOMContentLoaded` handler of `static/js/main.js`.
The browser is an explicit `World` value: the class list of the document root,
`localStorage`, the elements of the document, the export button object, the
pending timers, the registry of live object URLs and a chronological log of the
externally observable calls (storage writes, events, alerts, network, clicks).

Conventions of the embedding.
* An element is identified by a number (`Element.id`); it stands for the identity of
  the JavaScript object. `document.createElement` hands out `World.nextId`.
* `setTimeout(f, d)` queues `f` with due time `now + d`; `tick` lets one
  millisecond pass and runs what has become due, in registration order.
* A promise chain is run to completion against an `ExportEnv`, which fixes how the
  request settles and which browser call (if any) of the download sequence throws.
* `localStorage.setItem` throws `QuotaExceededError` when the browser cannot store the
  value (`World.storageAccepts`). The theme code has no `try`/`catch`: the exception
  ends the running callback there and is logged as uncaught.
-/

namespace CvPage

/-! ## Data model -/

/-- An element of the document, with the attributes and inline style properties
the script reads or writes. -/
structure Element where
  id : Nat
  tag : String
  classes : List String := []
  transition : String := ""
  color : String := ""
  position : String := ""
  opacity : String := ""
  pointerEvents : String := ""
  display : String := ""
  href : String := ""
  download : String := ""
deriving DecidableEq, Repr

/-- The export button object held by the closure (`exportButton`). -/
structure Button where
  innerHTML : String
  disabled : Bool
deriving DecidableEq, Repr

/-- Callbacks handed to `setTimeout` by the script. -/
inductive TimerAction where
  /-- Callback of line 17: `document.body.removeChild(preloadDiv)`. -/
  | removePreload (node : Nat)
  /-- Callback of line 114: `list.style.transition = ''`. -/
  | restoreTransition (node : Nat)
deriving DecidableEq, Repr

/-- A pending timer: the time at which it becomes due and its callback. -/
structure Timer where
  due : Nat
  action : TimerAction
deriving DecidableEq, Repr

/-- Externally observable calls, logged in the order in which they happen. -/
inductive Effect where
  /-- Call `localStorage.setItem(key, value)`. -/
  | storageSet (key value : String)
  /-- Call `document.dispatchEvent(new CustomEvent(name, { detail: { isDark } }))`. -/
  | dispatchEvent (name : String) (isDark : Bool)
  /-- Call `fetch(url)`. -/
  | fetch (url : String)
  /-- Call `console.error(msg, err)`. -/
  | consoleError (msg err : String)
  /-- Call `alert(msg)`. -/
  | alert (msg : String)
  /-- Call `window.URL.createObjectURL(blob)` returning `url`. -/
  | createObjectURL (blob : List Nat) (url : String)
  /-- Call `document.createElement(tag)` returning the element `node`. -/
  | createElement (tag : String) (node : Nat)
  /-- Call `click()` on the anchor `node`, with its `href` and `download` at that time. -/
  | click (node : Nat) (href download : String)
  /-- Call `window.URL.revokeObjectURL(url)`. -/
  | revokeObjectURL (url : String)
  /-- An exception that left the running callback uncaught. -/
  | uncaughtError (err : String)
deriving DecidableEq, Repr

/-- The browser state the script acts on. -/
structure World where
  /-- Tokens of `document.documentElement.classList`. -/
  rootClasses : List String
  /-- Content of `localStorage`, as key/value pairs. -/
  storage : List (String × String)
  /-- Whether the browser can store a value under a key, given the current content
  (quota not exceeded, storage not disabled for the site). -/
  storageAccepts : List (String × String) → String → String → Bool
  /-- Value of `window.matchMedia('(prefers-color-scheme: dark)').matches`. -/
  prefersDark : Bool
  /-- Elements of the document, in document order. -/
  nodes : List Element
  /-- State of the element with id `export-pdf`. -/
  button : Button
  /-- Identity handed to the next created element. -/
  nextId : Nat
  /-- Live object URLs with the blob each one refers to. -/
  objectURLs : List (String × List Nat)
  /-- Serial number of the next object URL. -/
  nextURL : Nat
  /-- Current time in milliseconds. -/
  now : Nat
  /-- Timers registered with `setTimeout` and not yet run. -/
  timers : List Timer
  /-- Log of observable calls, oldest first. -/
  log : List Effect

/-! ## Browser primitives -/

/-- Conversion `String(b)` of a boolean, which `localStorage.setItem` applies to its value. -/
def boolToString : Bool → String
  | true => "true"
  | false => "false"

/-- Lookup of `Storage.getItem`: `none` is JavaScript `null`. -/
def getItem : List (String × String) → String → Option String
  | [], _ => none
  | (k', v) :: rest, k => if k' = k then some v else getItem rest k

/-- Update of `Storage.setItem`: overwrite the pair of the key, or add one. -/
def setItem : List (String × String) → String → String → List (String × String)
  | [], k, v => [(k, v)]
  | (k', v') :: rest, k, v =>
    if k' = k then (k, v) :: rest else (k', v') :: setItem rest k v

/-- Call `localStorage.getItem(key)`. -/
def localStorageGetItem (key : String) (w : World) : Option String :=
  getItem w.storage key

/-- Whether `localStorage.setItem(key, value)` can store the value in the state `w`. -/
def storageAcceptsWrite (key value : String) (w : World) : Bool :=
  w.storageAccepts w.storage key value

/-- Call `localStorage.setItem(key, value)`: the value is stored and the call returns
when the browser accepts the write; otherwise nothing is stored and the call throws
`QuotaExceededError`. -/
def localStorageSetItem (key value : String) (w : World) : Except String Unit × World :=
  if storageAcceptsWrite key value w then
    (Except.ok (), { w with storage := setItem w.storage key value
                            log := w.log ++ [Effect.storageSet key value] })
  else (Except.error "QuotaExceededError", w)

/-- An exception leaves the running callback uncaught: the rest of the callback is
skipped and the browser reports the error. -/
def reportError (err : String) (w : World) : World :=
  { w with log := w.log ++ [Effect.uncaughtError err] }

/-- Call `classList.contains(token)`. -/
def classListContains (cs : List String) (token : String) : Bool :=
  cs.contains token

/-- Call `classList.toggle(token)`: remove the token when present (result `false`),
add it otherwise (result `true`). -/
def classListToggle (cs : List String) (token : String) : List String × Bool :=
  if classListContains cs token then (cs.filter (fun c => c != token), false)
  else (cs ++ [token], true)

/-- Call `classList.toggle(token, force)`: add the token when `force`, remove it otherwise. -/
def classListToggleForce (cs : List String) (token : String) (force : Bool) : List String :=
  if force then (if classListContains cs token then cs else cs ++ [token])
  else cs.filter (fun c => c != token)

/-- The theme flag: the document root carries the class `dark`. -/
def isDark (w : World) : Bool :=
  classListContains w.rootClasses "dark"

/-- Apply `f` to the element object with identity `node`. -/
def updateNode (node : Nat) (f : Element → Element) (w : World) : World :=
  { w with nodes := w.nodes.map (fun e => if e.id = node then f e else e) }

/-- Call `document.body.appendChild(e)`. -/
def appendChild (e : Element) (w : World) : World :=
  { w with nodes := w.nodes ++ [e] }

/-- Call `document.body.removeChild(e)` for the element with identity `node`; a node
that is not in the document leaves the document as it is. -/
def removeChild (node : Nat) (w : World) : World :=
  { w with nodes := w.nodes.filter (fun e => e.id != node) }

/-- Call `setTimeout(action, delay)`. -/
def setTimeout (action : TimerAction) (delay : Nat) (w : World) : World :=
  { w with timers := w.timers ++ [{ due := w.now + delay, action := action }] }

/-- Call `document.querySelectorAll(sel)`, as the identities of the matching elements,
for a selector given as a predicate. -/
def querySelectorAll (sel : Element → Bool) (w : World) : List Nat :=
  (w.nodes.filter sel).map (fun e => e.id)

/-- Method `NodeList.forEach`. -/
def forEach (xs : List Nat) (f : Nat → World → World) (w : World) : World :=
  xs.foldl (fun acc x => f x acc) w

/-- Selector `ul.list-disc`. -/
def selBulletList (e : Element) : Bool :=
  e.tag == "ul" && e.classes.contains "list-disc"

/-- Selector `.theme-optimized-list`. -/
def selOptimizedList (e : Element) : Bool :=
  e.classes.contains "theme-optimized-list"

/-- Selector `li`. -/
def selListItem (e : Element) : Bool :=
  e.tag == "li"

/-- Selector `.theme-optimized-item`. -/
def selOptimizedItem (e : Element) : Bool :=
  e.classes.contains "theme-optimized-item"

/-- The element with identity `node`, if it is in the document. -/
def findNode (node : Nat) (w : World) : Option Element :=
  w.nodes.find? (fun e => e.id == node)

/-! ## Timers -/

/-- Run one timer callback. -/
def runTimerAction : TimerAction → World → World
  | TimerAction.removePreload node, w => removeChild node w
  | TimerAction.restoreTransition node, w =>
    updateNode node (fun e => { e with transition := "" }) w

/-- One millisecond passes: the timers that have become due run in registration
order and leave the queue. -/
def tick (w : World) : World :=
  let now := w.now + 1
  let due := w.timers.filter (fun t => decide (t.due ≤ now))
  let rest := w.timers.filter (fun t => !decide (t.due ≤ now))
  due.foldl (fun acc t => runTimerAction t.action acc) { w with now := now, timers := rest }

/-- Let `ms` milliseconds pass. -/
def advance : Nat → World → World
  | 0, w => w
  | ms + 1, w => advance ms (tick w)

/-! ## Theme manager (lines 3-22, 78-92, 97-146) -/

/-- The hidden element built by `preloadThemeStyles` (lines 5-9). -/
def preloadDiv (w : World) : Element :=
  { id := w.nextId, tag := "div", classes := ["dark", "hidden"],
    position := "absolute", opacity := "0", pointerEvents := "none" }

/-- Function `preloadThemeStyles` (lines 3-19). Reading the computed style (line 13)
changes nothing in the state. -/
def preloadThemeStyles (w : World) : World :=
  let div := preloadDiv w
  let w := { w with nextId := w.nextId + 1
                    log := w.log ++ [Effect.createElement "div" div.id] }
  let w := appendChild div w
  setTimeout (TimerAction.removePreload div.id) 100 w

/-- Function `initTheme` (lines 78-89), as the state it leaves. When `setItem` throws
on line 84, line 85 is not reached: nothing is stored, the root classes stay as they
were, and the exception leaves `initTheme` and the `DOMContentLoaded` callback that
called it (line 92) uncaught. -/
def initTheme (w : World) : World :=
  match localStorageGetItem "darkMode" w with
  | none =>
    let prefersDark := w.prefersDark
    match localStorageSetItem "darkMode" (boolToString prefersDark) w with
    | (Except.error err, w) => reportError err w
    | (Except.ok _, w) =>
      { w with rootClasses := classListToggleForce w.rootClasses "dark" prefersDark }
  | some darkMode =>
    { w with
      rootClasses := classListToggleForce w.rootClasses "dark" (decide (darkMode = "true")) }

/-- Text colour written on list items: light text on dark, dark text on light. -/
def itemColor (dark : Bool) : String :=
  if dark then "hsl(0, 0%, 98%)" else "hsl(240, 10%, 3.9%)"

/-- First loop of the toggle handler (lines 104-116): every `ul.list-disc` gets
its transition switched off and a 50ms timer that clears the inline value again.
Reading the computed style (line 110) changes nothing in the state. -/
def suspendBulletListTransitions (w : World) : World :=
  let lists := querySelectorAll selBulletList w
  forEach lists (fun list acc =>
    let acc := updateNode list (fun e => { e with transition := "none" }) acc
    setTimeout (TimerAction.restoreTransition list) 50 acc) w

/-- Second loop (lines 119-123): every `.theme-optimized-list` gets its transition
switched off. -/
def disableOptimizedListTransitions (w : World) : World :=
  let optimizedLists := querySelectorAll selOptimizedList w
  forEach optimizedLists (fun list acc =>
    updateNode list (fun e => { e with transition := "none" }) acc) w

/-- Third loop (lines 126-132): every `li` gets its text colour written directly. -/
def recolorListItems (dark : Bool) (w : World) : World :=
  let listItems := querySelectorAll selListItem w
  forEach listItems (fun item acc =>
    updateNode item (fun e => { e with color := itemColor dark }) acc) w

/-- Fourth loop (lines 135-142): every `.theme-optimized-item` gets a short colour
transition and then the text colour. -/
def recolorOptimizedItems (dark : Bool) (w : World) : World :=
  let optimizedItems := querySelectorAll selOptimizedItem w
  forEach optimizedItems (fun item acc =>
    let acc := updateNode item (fun e => { e with transition := "color 0.15s ease" }) acc
    updateNode item (fun e => { e with color := itemColor dark }) acc) w

/-- Click handler of `.theme-toggle` (lines 97-146), as the state it leaves. When
`setItem` throws on line 101 the class of the root is already flipped (line 100); the
loops and the dispatch of lines 104-145 are skipped. -/
def themeToggleClick (w : World) : World :=
  let toggled := classListToggle w.rootClasses "dark"
  let w := { w with rootClasses := toggled.1 }
  let dark := toggled.2
  match localStorageSetItem "darkMode" (boolToString dark) w with
  | (Except.error err, w) => reportError err w
  | (Except.ok _, w) =>
    let w := suspendBulletListTransitions w
    let w := disableOptimizedListTransitions w
    let w := recolorListItems dark w
    let w := recolorOptimizedItems dark w
    { w with log := w.log ++ [Effect.dispatchEvent "themeChanged" dark] }

/-! ## Export trigger (lines 28-74) -/

/-- What `fetch` resolves with: the status and the outcome of reading the body with
`response.blob()` (the bytes, or the reason of the rejection). -/
structure Response where
  status : Nat
  body : Except String (List Nat)

/-- Getter `response.ok`: the status is in the range 200-299. -/
def Response.ok (r : Response) : Bool :=
  decide (200 ≤ r.status ∧ r.status ≤ 299)

/-- The browser calls of the download sequence that may throw. -/
inductive DownloadStep where
  | createObjectURL
  | appendChild
  | click
  | revokeObjectURL
  | removeChild
deriving DecidableEq, Repr

/-- How one export job goes: how `fetch('/export-pdf')` settles (rejected with a
reason, or resolved with a response) and which calls of the download sequence throw. -/
structure ExportEnv where
  fetchResult : Except String Response
  throws : DownloadStep → Bool

/-- The inline spinner written into the button (line 31). -/
def spinner : String :=
  "<svg xmlns=\"http://www.w3.org/2000/svg\" width=\"24\" height=\"24\" viewBox=\"0 0 24 24\" fill=\"none\" stroke=\"currentColor\" stroke-width=\"2\" stroke-linecap=\"round\" stroke-linejoin=\"round\"><circle cx=\"12\" cy=\"12\" r=\"10\"></circle><path d=\"M12 6v6l4 2\"></path></svg>"

/-- The object URL with serial number `n`. -/
def objectURL (n : Nat) : String :=
  "blob:" ++ toString n

/-- Synchronous part of the click handler (lines 30-35): capture the content, show
the spinner, disable the button, start the request. Returns `originalContent`. -/
def exportClick (w : World) : String × World :=
  let originalContent := w.button.innerHTML
  let w := { w with button := { w.button with innerHTML := spinner } }
  let w := { w with button := { w.button with disabled := true } }
  let w := { w with log := w.log ++ [Effect.fetch "/export-pdf"] }
  (originalContent, w)

/-- First `then` callback (lines 36-41). -/
def onResponse (response : Response) : Except String (List Nat) :=
  if !response.ok then Except.error "Error: Network response was not ok"
  else response.body

/-- The anchor as it is when appended and clicked (lines 47-50). -/
def downloadAnchor (w : World) : Element :=
  { id := w.nextId, tag := "a", display := "none", href := objectURL w.nextURL,
    download := "resume.pdf" }

/-- Second `then` callback (lines 42-63). A call that throws leaves the state as it
was before the call. -/
def onBlob (env : ExportEnv) (originalContent : String) (blob : List Nat) (w : World) :
    Except String Unit × World :=
  if env.throws DownloadStep.createObjectURL then (Except.error "createObjectURL", w) else
  let url := objectURL w.nextURL
  let w := { w with objectURLs := w.objectURLs ++ [(url, blob)]
                    nextURL := w.nextURL + 1
                    log := w.log ++ [Effect.createObjectURL blob url] }
  let a : Element := { id := w.nextId, tag := "a" }
  let w := { w with nextId := w.nextId + 1
                    log := w.log ++ [Effect.createElement "a" a.id] }
  let a := { a with display := "none" }
  let a := { a with href := url }
  let a := { a with download := "resume.pdf" }
  if env.throws DownloadStep.appendChild then (Except.error "appendChild", w) else
  let w := appendChild a w
  if env.throws DownloadStep.click then (Except.error "click", w) else
  let w := { w with log := w.log ++ [Effect.click a.id a.href a.download] }
  if env.throws DownloadStep.revokeObjectURL then (Except.error "revokeObjectURL", w) else
  let w := { w with objectURLs := w.objectURLs.filter (fun p => p.1 != url)
                    log := w.log ++ [Effect.revokeObjectURL url] }
  if env.throws DownloadStep.removeChild then (Except.error "removeChild", w) else
  let w := removeChild a.id w
  let w := { w with button := { w.button with innerHTML := originalContent } }
  let w := { w with button := { w.button with disabled := false } }
  (Except.ok (), w)

/-- The `catch` callback (lines 64-73). -/
def onError (originalContent : String) (error : String) (w : World) : World :=
  let w := { w with log := w.log ++ [Effect.consoleError "Error exporting PDF:" error] }
  let w := { w with log := w.log ++ [Effect.alert "Failed to export PDF. Please try again."] }
  let w := { w with button := { w.button with innerHTML := originalContent } }
  { w with button := { w.button with disabled := false } }

/-- The promise chain `fetch(..).then(..).then(..).catch(..)` run to completion in
the state `w` once the request has settled as `env` says. -/
def exportSettle (env : ExportEnv) (originalContent : String) (w : World) : World :=
  match env.fetchResult with
  | Except.error e => onError originalContent e w
  | Except.ok response =>
    match onResponse response with
    | Except.error e => onError originalContent e w
    | Except.ok blob =>
      match onBlob env originalContent blob w with
      | (Except.error e, w) => onError originalContent e w
      | (Except.ok _, w) => w

/-- One whole export job: the click, then the settled promise chain. -/
def exportFlow (env : ExportEnv) (w : World) : World :=
  exportSettle env (exportClick w).1 (exportClick w).2

/-- The part of the log written since the state `before`. -/
def logSince (before after : World) : List Effect :=
  after.log.drop before.log.length

/-! ## Observations -/

/-- The part of the state the element loops of the toggle handler leave alone. -/
def World.frame (w : World) : List String × List (String × String) × List Effect :=
  (w.rootClasses, w.storage, w.log)

/-! ## Sample states -/

/-- A page without list markup, first visit: light root, empty storage that accepts
every write. -/
def blankPage : World where
  rootClasses := []
  storage := []
  storageAccepts := fun _ _ _ => true
  prefersDark := false
  nodes := []
  button := { innerHTML := "Export PDF", disabled := false }
  nextId := 0
  objectURLs := []
  nextURL := 0
  now := 0
  timers := []
  log := []

/-- A visit on which `darkMode` holds a string that is not a stringified boolean. -/
def oddPreferencePage : World :=
  { blankPage with storage := [("darkMode", "1")] }

/-- A page already shown in the dark theme, with the preference stored. -/
def darkPage : World :=
  { blankPage with rootClasses := ["dark"], storage := [("darkMode", "true")] }

/-- A light page with `false` stored, whose storage takes no further write (quota
reached, or storage disabled since the value was written). -/
def fullStoragePage : World :=
  { blankPage with storage := [("darkMode", "false")], storageAccepts := fun _ _ _ => false }

/-- A first visit under a dark OS preference to a site whose storage takes no write. -/
def blockedStoragePage : World :=
  { blankPage with prefersDark := true, storageAccepts := fun _ _ _ => false }

/-- A page with three lists: a bulleted list that is also marked as optimized, an
ordered list marked as optimized, and an ordinary bulleted list. -/
def listPage : World :=
  { blankPage with
    nodes := [{ id := 0, tag := "ul", classes := ["list-disc", "theme-optimized-list"] },
              { id := 1, tag := "ol", classes := ["theme-optimized-list"] },
              { id := 2, tag := "ul", classes := ["list-disc"] }]
    nextId := 3 }

/-- The inline `transition` of the element with identity `node`. -/
def transitionOf (node : Nat) (w : World) : Option String :=
  (findNode node w).map (fun e => e.transition)

/-! ## Auxiliary facts about the primitives -/

theorem getItem_setItem (st : List (String × String)) (k v : String) :
    getItem (setItem st k v) k = some v := by
  induction st with
  | nil => simp [setItem, getItem]
  | cons p rest ih =>
    obtain ⟨k', v'⟩ := p
    by_cases h : k' = k
    · simp [setItem, getItem, h]
    · simp [setItem, getItem, h, ih]

theorem classListContains_toggle (cs : List String) (token : String) :
    classListContains (classListToggle cs token).1 token = !classListContains cs token := by
  unfold classListToggle
  by_cases h : classListContains cs token = true
  · simp [h]
    simp [classListContains, List.mem_filter]
  · simp [h]
    simp [classListContains]

theorem classListToggle_result (cs : List String) (token : String) :
    (classListToggle cs token).2 = !classListContains cs token := by
  unfold classListToggle
  by_cases h : classListContains cs token = true <;> simp [h]

theorem classListContains_toggleForce (cs : List String) (token : String) (force : Bool) :
    classListContains (classListToggleForce cs token force) token = force := by
  unfold classListToggleForce
  cases force
  · simp [classListContains, List.mem_filter]
  · by_cases h : classListContains cs token = true
    · simp [h]
    · simp [h]
      simp [classListContains]

theorem forEach_preserves {β : Type} (g : World → β) (f : Nat → World → World)
    (h : ∀ x w, g (f x w) = g w) (xs : List Nat) (w : World) :
    g (forEach xs f w) = g w := by
  induction xs generalizing w with
  | nil => rfl
  | cons x rest ih =>
    show g (forEach rest f (f x w)) = g w
    rw [ih, h]

theorem suspendBulletListTransitions_frame (w : World) :
    (suspendBulletListTransitions w).frame = w.frame := by
  unfold suspendBulletListTransitions
  apply forEach_preserves World.frame
  intro x v
  rfl

theorem disableOptimizedListTransitions_frame (w : World) :
    (disableOptimizedListTransitions w).frame = w.frame := by
  unfold disableOptimizedListTransitions
  apply forEach_preserves World.frame
  intro x v
  rfl

theorem recolorListItems_frame (dark : Bool) (w : World) :
    (recolorListItems dark w).frame = w.frame := by
  unfold recolorListItems
  apply forEach_preserves World.frame
  intro x v
  rfl

theorem recolorOptimizedItems_frame (dark : Bool) (w : World) :
    (recolorOptimizedItems dark w).frame = w.frame := by
  unfold recolorOptimizedItems
  apply forEach_preserves World.frame
  intro x v
  rfl

theorem touchUp_frame (dark : Bool) (w : World) :
    (recolorOptimizedItems dark (recolorListItems dark
      (disableOptimizedListTransitions (suspendBulletListTransitions w)))).frame = w.frame := by
  rw [recolorOptimizedItems_frame, recolorListItems_frame,
    disableOptimizedListTransitions_frame, suspendBulletListTransitions_frame]

theorem localStorageSetItem_accepted (key value : String) (w : World)
    (h : storageAcceptsWrite key value w = true) :
    localStorageSetItem key value w =
      (Except.ok (), { w with storage := setItem w.storage key value
                              log := w.log ++ [Effect.storageSet key value] }) := by
  unfold localStorageSetItem
  rw [if_pos h]

theorem localStorageSetItem_refused (key value : String) (w : World)
    (h : storageAcceptsWrite key value w = false) :
    localStorageSetItem key value w = (Except.error "QuotaExceededError", w) := by
  unfold localStorageSetItem
  rw [h]
  rfl

/-- A run of the toggle handler whose write is refused: the root class is flipped, the
exception is reported, and nothing else happens. -/
theorem themeToggleClick_refused (w : World)
    (h : storageAcceptsWrite "darkMode"
      (boolToString (classListToggle w.rootClasses "dark").2) w = false) :
    themeToggleClick w =
      reportError "QuotaExceededError"
        { w with rootClasses := (classListToggle w.rootClasses "dark").1 } := by
  have h' : storageAcceptsWrite "darkMode"
      (boolToString (classListToggle w.rootClasses "dark").2)
      { w with rootClasses := (classListToggle w.rootClasses "dark").1 } = false := h
  simp only [themeToggleClick, localStorageSetItem_refused _ _ _ h']

/-- What a run of the toggle handler whose write is accepted does to the root class
list, the storage and the log: the element loops touch none of them. -/
theorem themeToggleClick_core (w : World)
    (h : storageAcceptsWrite "darkMode"
      (boolToString (classListToggle w.rootClasses "dark").2) w = true) :
    (themeToggleClick w).rootClasses = (classListToggle w.rootClasses "dark").1 ∧
    (themeToggleClick w).storage =
      setItem w.storage "darkMode" (boolToString (classListToggle w.rootClasses "dark").2) ∧
    (themeToggleClick w).log =
      w.log ++ [Effect.storageSet "darkMode"
                  (boolToString (classListToggle w.rootClasses "dark").2),
                Effect.dispatchEvent "themeChanged" (classListToggle w.rootClasses "dark").2] := by
  have h' : storageAcceptsWrite "darkMode"
      (boolToString (classListToggle w.rootClasses "dark").2)
      { w with rootClasses := (classListToggle w.rootClasses "dark").1 } = true := h
  have hf := touchUp_frame (classListToggle w.rootClasses "dark").2
    (localStorageSetItem "darkMode" (boolToString (classListToggle w.rootClasses "dark").2)
      { w with rootClasses := (classListToggle w.rootClasses "dark").1 }).2
  simp only [World.frame, Prod.mk.injEq, localStorageSetItem_accepted _ _ _ h'] at hf
  obtain ⟨h1, h2, h3⟩ := hf
  refine ⟨?_, ?_, ?_⟩
  · simp only [themeToggleClick, localStorageSetItem_accepted _ _ _ h']
    rw [h1]
  · simp only [themeToggleClick, localStorageSetItem_accepted _ _ _ h']
    rw [h2]
  · simp only [themeToggleClick, localStorageSetItem_accepted _ _ _ h']
    rw [h3]
    simp

/-- The flip of line 100 happens on every run, whether or not the write is accepted. -/
theorem isDark_themeToggleClick (w : World) :
    isDark (themeToggleClick w) = !isDark w := by
  have hr : (themeToggleClick w).rootClasses = (classListToggle w.rootClasses "dark").1 := by
    cases h : storageAcceptsWrite "darkMode"
        (boolToString (classListToggle w.rootClasses "dark").2) w
    · rw [themeToggleClick_refused w h]
      rfl
    · exact (themeToggleClick_core w h).1
  unfold isDark
  rw [hr, classListContains_toggle]

theorem storage_themeToggleClick (w : World)
    (h : storageAcceptsWrite "darkMode" (boolToString (!isDark w)) w = true) :
    localStorageGetItem "darkMode" (themeToggleClick w) = some (boolToString (!isDark w)) := by
  have h' : storageAcceptsWrite "darkMode"
      (boolToString (classListToggle w.rootClasses "dark").2) w = true := by
    rw [classListToggle_result]
    exact h
  unfold localStorageGetItem
  rw [(themeToggleClick_core w h').2.1, getItem_setItem, classListToggle_result]
  rfl

theorem logSince_append (w v : World) (es : List Effect) (h : v.log = w.log ++ es) :
    logSince w v = es := by
  simp [logSince, h]

theorem getItem_initTheme_of_some (w : World) (s : String)
    (h : localStorageGetItem "darkMode" w = some s) :
    initTheme w =
      { w with
        rootClasses := classListToggleForce w.rootClasses "dark" (decide (s = "true")) } := by
  unfold initTheme
  rw [h]

theorem getItem_initTheme_of_none (w : World)
    (h : localStorageGetItem "darkMode" w = none)
    (ha : storageAcceptsWrite "darkMode" (boolToString w.prefersDark) w = true) :
    initTheme w =
      { w with
        rootClasses := classListToggleForce w.rootClasses "dark" w.prefersDark
        storage := setItem w.storage "darkMode" (boolToString w.prefersDark)
        log := w.log ++ [Effect.storageSet "darkMode" (boolToString w.prefersDark)] } := by
  unfold initTheme
  rw [h]
  simp only [localStorageSetItem_accepted _ _ _ ha]

/-! ## Theme manager: the claims -/

/-- C2, as stated, fails: on a page whose stored `darkMode` is the string `1` (so
`initTheme` leaves the root light and the stored string alone), two runs of the toggle
handler restore the root flag but leave `false` stored, not `1`. -/
theorem toggle_twice_changes_odd_preference :
    localStorageGetItem "darkMode" (initTheme oddPreferencePage) = some "1" ∧
    isDark (initTheme oddPreferencePage) = false ∧
    isDark (themeToggleClick (themeToggleClick (initTheme oddPreferencePage))) = false ∧
    localStorageGetItem "darkMode"
      (themeToggleClick (themeToggleClick (initTheme oddPreferencePage))) = some "false" ∧
    localStorageGetItem "darkMode"
      (themeToggleClick (themeToggleClick (initTheme oddPreferencePage))) ≠
    localStorageGetItem "darkMode" (initTheme oddPreferencePage) := by
  decide

/-- C2, amended: two runs of the toggle handler in a row restore the root `dark` flag;
when the storage accepts the write of the second run they leave under `darkMode` the
stringified original flag, so that the persisted value is restored exactly when it was
the stringified root flag before the first run. -/
theorem toggle_twice_restores (w : World) :
    isDark (themeToggleClick (themeToggleClick w)) = isDark w ∧
    (storageAcceptsWrite "darkMode" (boolToString (isDark w)) (themeToggleClick w) = true →
      localStorageGetItem "darkMode" (themeToggleClick (themeToggleClick w)) =
        some (boolToString (isDark w)) ∧
      (localStorageGetItem "darkMode" (themeToggleClick (themeToggleClick w)) =
          localStorageGetItem "darkMode" w ↔
        localStorageGetItem "darkMode" w = some (boolToString (isDark w)))) := by
  have h1 : isDark (themeToggleClick (themeToggleClick w)) = isDark w := by
    rw [isDark_themeToggleClick, isDark_themeToggleClick, Bool.not_not]
  refine ⟨h1, fun h => ?_⟩
  have h2 : localStorageGetItem "darkMode" (themeToggleClick (themeToggleClick w)) =
      some (boolToString (isDark w)) := by
    have h' : storageAcceptsWrite "darkMode"
        (boolToString (!isDark (themeToggleClick w))) (themeToggleClick w) = true := by
      rw [isDark_themeToggleClick, Bool.not_not]
      exact h
    rw [storage_themeToggleClick _ h', isDark_themeToggleClick, Bool.not_not]
  refine ⟨h2, ?_⟩
  rw [h2]
  exact eq_comm

/-- C2, amended, on the page whose stored `darkMode` is `1` and on a dark page with
`true` stored: both accept the second write; the first is left with `false` instead of
`1`, the second gets its `true` back. -/
theorem toggle_twice_restores_witness :
    (isDark (themeToggleClick (themeToggleClick oddPreferencePage)) =
        isDark oddPreferencePage ∧
      localStorageGetItem "darkMode" (themeToggleClick (themeToggleClick oddPreferencePage)) =
        some "false") ∧
    (isDark (themeToggleClick (themeToggleClick darkPage)) = true ∧
      localStorageGetItem "darkMode" (themeToggleClick (themeToggleClick darkPage)) =
        localStorageGetItem "darkMode" darkPage) :=
  ⟨⟨(toggle_twice_restores oddPreferencePage).1,
    ((toggle_twice_restores oddPreferencePage).2 rfl).1⟩,
   ⟨(toggle_twice_restores darkPage).1,
    ((toggle_twice_restores darkPage).2 rfl).2.mpr rfl⟩⟩

/-- C3, as stated, fails: on a light page with `false` stored (flag and stored value
in sync) whose storage takes no further write, one run of the toggle handler flips the
root to dark (line 100) and the write of line 101 throws, so `false` stays stored
while the root carries `dark`. -/
theorem toggle_with_refused_write_out_of_sync :
    isDark fullStoragePage = false ∧
    localStorageGetItem "darkMode" fullStoragePage = some "false" ∧
    isDark (themeToggleClick fullStoragePage) = true ∧
    localStorageGetItem "darkMode" (themeToggleClick fullStoragePage) = some "false" ∧
    localStorageGetItem "darkMode" (themeToggleClick fullStoragePage) ≠
      some (boolToString (isDark (themeToggleClick fullStoragePage))) := by
  decide

/-- C3, amended: after one run of the toggle handler the root flag is the negation of
the flag before; and when the storage accepts the write of the new value, the value
stored under `darkMode` is the stringified new flag: it is `true` exactly when the
root carries `dark` and `false` exactly when it does not. -/
theorem toggle_keeps_storage_in_sync (w : World) :
    isDark (themeToggleClick w) = !isDark w ∧
    (storageAcceptsWrite "darkMode" (boolToString (!isDark w)) w = true →
      localStorageGetItem "darkMode" (themeToggleClick w) =
        some (boolToString (isDark (themeToggleClick w))) ∧
      (localStorageGetItem "darkMode" (themeToggleClick w) = some "true" ↔
        isDark (themeToggleClick w) = true) ∧
      (localStorageGetItem "darkMode" (themeToggleClick w) = some "false" ↔
        isDark (themeToggleClick w) = false)) := by
  have h1 := isDark_themeToggleClick w
  refine ⟨h1, fun ha => ?_⟩
  have h2 := storage_themeToggleClick w ha
  rw [← h1] at h2
  refine ⟨h2, ?_, ?_⟩
  · rw [h2]
    cases isDark (themeToggleClick w) <;> simp [boolToString]
  · rw [h2]
    cases isDark (themeToggleClick w) <;> simp [boolToString]

/-- C3, amended, on a light first visit and on a dark page: the write is accepted and
the stored value follows the flipped flag. -/
theorem toggle_keeps_storage_in_sync_witness :
    (isDark (themeToggleClick blankPage) = true ∧
      localStorageGetItem "darkMode" (themeToggleClick blankPage) =
        some (boolToString (isDark (themeToggleClick blankPage)))) ∧
    (isDark (themeToggleClick darkPage) = false ∧
      localStorageGetItem "darkMode" (themeToggleClick darkPage) =
        some (boolToString (isDark (themeToggleClick darkPage)))) :=
  ⟨⟨(toggle_keeps_storage_in_sync blankPage).1,
    ((toggle_keeps_storage_in_sync blankPage).2 rfl).1⟩,
   ⟨(toggle_keeps_storage_in_sync darkPage).1,
    ((toggle_keeps_storage_in_sync darkPage).2 rfl).1⟩⟩

/-- C4, as stated, fails: on a first visit under a dark OS preference to a site whose
storage takes no write, `setItem` throws on line 84, so after `initTheme` nothing is
stored under `darkMode` and the root does not carry `dark`. -/
theorem initTheme_with_refused_write_persists_nothing :
    localStorageGetItem "darkMode" blockedStoragePage = none ∧
    blockedStoragePage.prefersDark = true ∧
    localStorageGetItem "darkMode" (initTheme blockedStoragePage) = none ∧
    isDark (initTheme blockedStoragePage) = false ∧
    (initTheme blockedStoragePage).log = [Effect.uncaughtError "QuotaExceededError"] := by
  decide

/-- C4, amended: with nothing stored under `darkMode` and a storage that accepts the
write, `initTheme` under the OS preference signal `p` stores the stringified `p` and
leaves the root with the `dark` flag set exactly when `p` is dark, whatever the root
classes were before. -/
theorem initTheme_without_stored_preference (w : World) (p : Bool)
    (h : localStorageGetItem "darkMode" w = none)
    (ha : storageAcceptsWrite "darkMode" (boolToString p) w = true) :
    localStorageGetItem "darkMode" (initTheme { w with prefersDark := p }) =
      some (boolToString p) ∧
    isDark (initTheme { w with prefersDark := p }) = p := by
  have h' : localStorageGetItem "darkMode" { w with prefersDark := p } = none := h
  have ha' : storageAcceptsWrite "darkMode"
      (boolToString ({ w with prefersDark := p } : World).prefersDark)
      { w with prefersDark := p } = true := ha
  rw [getItem_initTheme_of_none _ h' ha']
  constructor
  · exact getItem_setItem _ _ _
  · exact classListContains_toggleForce _ _ _

/-- C4, amended, at a first visit: a dark OS preference stores `true` and sets the
flag (even on a root that had no flag), a light one stores `false` and clears the flag
(even on a root that carried it). -/
theorem initTheme_without_stored_preference_witness :
    localStorageGetItem "darkMode" blankPage = none ∧
    storageAcceptsWrite "darkMode" "true" blankPage = true ∧
    (localStorageGetItem "darkMode" (initTheme { blankPage with prefersDark := true }) =
        some "true" ∧
      isDark (initTheme { blankPage with prefersDark := true }) = true) ∧
    (localStorageGetItem "darkMode"
        (initTheme { { blankPage with rootClasses := ["dark"] } with prefersDark := false }) =
        some "false" ∧
      isDark (initTheme
        { { blankPage with rootClasses := ["dark"] } with prefersDark := false }) = false) :=
  ⟨rfl, rfl, initTheme_without_stored_preference blankPage true rfl rfl,
    initTheme_without_stored_preference { blankPage with rootClasses := ["dark"] } false
      rfl rfl⟩

/-- C7, as stated, fails: on a page whose storage takes no further write, a run of
the toggle handler ends at the throw of line 101; the log gains the uncaught error
and no `themeChanged` event. -/
theorem toggle_with_refused_write_dispatches_nothing :
    logSince fullStoragePage (themeToggleClick fullStoragePage) =
      [Effect.uncaughtError "QuotaExceededError"] ∧
    Effect.dispatchEvent "themeChanged" true ∉
      logSince fullStoragePage (themeToggleClick fullStoragePage) ∧
    Effect.dispatchEvent "themeChanged" false ∉
      logSince fullStoragePage (themeToggleClick fullStoragePage) := by
  decide

/-- C7, amended: a run of the toggle handler whose write of the new value is accepted
by the storage adds to the log exactly that write under `darkMode` followed by one
`themeChanged` event whose `isDark` is the root flag after the flip; nothing else is
dispatched, and the write comes first. -/
theorem toggle_dispatches_one_event_after_write (w : World)
    (h : storageAcceptsWrite "darkMode" (boolToString (!isDark w)) w = true) :
    logSince w (themeToggleClick w) =
      [Effect.storageSet "darkMode" (boolToString (isDark (themeToggleClick w))),
       Effect.dispatchEvent "themeChanged" (isDark (themeToggleClick w))] := by
  have h' : storageAcceptsWrite "darkMode"
      (boolToString (classListToggle w.rootClasses "dark").2) w = true := by
    rw [classListToggle_result]
    exact h
  apply logSince_append
  rw [(themeToggleClick_core w h').2.2, isDark_themeToggleClick, classListToggle_result]
  rfl

/-- C7, amended, on a light first visit: the write of `true`, then one event with
`isDark` true. -/
theorem toggle_dispatches_one_event_after_write_witness :
    storageAcceptsWrite "darkMode" (boolToString (!isDark blankPage)) blankPage = true ∧
    logSince blankPage (themeToggleClick blankPage) =
      [Effect.storageSet "darkMode" (boolToString (isDark (themeToggleClick blankPage))),
       Effect.dispatchEvent "themeChanged" (isDark (themeToggleClick blankPage))] :=
  ⟨rfl, toggle_dispatches_one_event_after_write blankPage rfl⟩

/-- C10: with a string `s` stored under `darkMode`, `initTheme` writes nothing (storage
and log are unchanged) and sets the root `dark` flag exactly when `s` is `true`; so for
a stored stringified boolean the applied flag is the stored boolean. -/
theorem initTheme_with_stored_preference (w : World) (s : String)
    (h : localStorageGetItem "darkMode" w = some s) :
    (initTheme w).storage = w.storage ∧
    (initTheme w).log = w.log ∧
    localStorageGetItem "darkMode" (initTheme w) = some s ∧
    (isDark (initTheme w) = true ↔ s = "true") ∧
    (∀ b : Bool, s = boolToString b → isDark (initTheme w) = b) := by
  rw [getItem_initTheme_of_some w s h]
  have hd : isDark
      { w with
        rootClasses := classListToggleForce w.rootClasses "dark" (decide (s = "true")) } =
      decide (s = "true") := classListContains_toggleForce _ _ _
  refine ⟨rfl, rfl, h, ?_, ?_⟩
  · rw [hd]
    simp
  · intro b hb
    rw [hd, hb]
    cases b <;> simp [boolToString]

/-- C10 on two visits: a stored `true` puts the flag on a light root, and a stored
string that is not `true` takes it off a dark root; the stored string stays. -/
theorem initTheme_with_stored_preference_witness :
    (localStorageGetItem "darkMode" { darkPage with rootClasses := [] } = some "true" ∧
      isDark (initTheme { darkPage with rootClasses := [] }) = true) ∧
    (localStorageGetItem "darkMode" { oddPreferencePage with rootClasses := ["dark"] } =
        some "1" ∧
      localStorageGetItem "darkMode"
        (initTheme { oddPreferencePage with rootClasses := ["dark"] }) = some "1" ∧
      ¬ isDark (initTheme { oddPreferencePage with rootClasses := ["dark"] }) = true) :=
  ⟨⟨rfl, (initTheme_with_stored_preference { darkPage with rootClasses := [] } "true"
      rfl).2.2.2.2 true rfl⟩,
   ⟨rfl, (initTheme_with_stored_preference { oddPreferencePage with rootClasses := ["dark"] }
      "1" rfl).2.2.1,
    fun hd => absurd
      ((initTheme_with_stored_preference { oddPreferencePage with rootClasses := ["dark"] }
        "1" rfl).2.2.2.1.mp hd) (by decide)⟩⟩

/-! ## Export trigger: auxiliary facts -/

theorem onError_button (originalContent error : String) (w : World) :
    (onError originalContent error w).button =
      { innerHTML := originalContent, disabled := false } := rfl

theorem onBlob_ok_button (env : ExportEnv) (originalContent : String) (blob : List Nat)
    (w v : World) (u : Unit) (h : onBlob env originalContent blob w = (Except.ok u, v)) :
    v.button = { innerHTML := originalContent, disabled := false } := by
  unfold onBlob at h
  split_ifs at h <;> simp at h
  rw [← h]

theorem exportSettle_button (env : ExportEnv) (originalContent : String) (w : World) :
    (exportSettle env originalContent w).button =
      { innerHTML := originalContent, disabled := false } := by
  unfold exportSettle
  split
  · rfl
  · split
    · rfl
    · split
      · rfl
      · next u v h => exact onBlob_ok_button _ _ _ _ _ u h

theorem onBlob_no_throw (env : ExportEnv) (originalContent : String) (blob : List Nat)
    (w : World) (h : ∀ step, env.throws step = false) :
    onBlob env originalContent blob w =
      (Except.ok (),
       { w with
         nodes := (w.nodes ++ [downloadAnchor w]).filter (fun e => e.id != w.nextId)
         button := { innerHTML := originalContent, disabled := false }
         nextId := w.nextId + 1
         objectURLs := (w.objectURLs ++ [(objectURL w.nextURL, blob)]).filter
                         (fun p => p.1 != objectURL w.nextURL)
         nextURL := w.nextURL + 1
         log := w.log ++ [Effect.createObjectURL blob (objectURL w.nextURL),
                          Effect.createElement "a" w.nextId,
                          Effect.click w.nextId (objectURL w.nextURL) "resume.pdf",
                          Effect.revokeObjectURL (objectURL w.nextURL)] }) := by
  unfold onBlob
  simp [h, appendChild, removeChild, downloadAnchor]

/-! ## Export trigger: the claims -/

/-- C1: a click captures the button content, shows the spinner and disables the
button; however the job then goes (the request rejects, resolves with a status
outside 200-299, the body cannot be read, any of the five calls of the download
sequence throws, or all succeeds) and whatever state `later` the page is in when the
promise settles, the job ends with the button holding the content captured at click
time and enabled. -/
theorem export_restores_button (env : ExportEnv) (w later : World) :
    (exportClick w).1 = w.button.innerHTML ∧
    (exportClick w).2.button = { innerHTML := spinner, disabled := true } ∧
    (exportSettle env (exportClick w).1 later).button.innerHTML = w.button.innerHTML ∧
    (exportSettle env (exportClick w).1 later).button.disabled = false ∧
    (exportFlow env w).button.innerHTML = w.button.innerHTML ∧
    (exportFlow env w).button.disabled = false := by
  refine ⟨rfl, rfl, ?_, ?_, ?_, ?_⟩
  · rw [exportSettle_button]
    rfl
  · rw [exportSettle_button]
  · unfold exportFlow
    rw [exportSettle_button]
    rfl
  · unfold exportFlow
    rw [exportSettle_button]

/-- C5: when the request resolves with a status outside 200-299, the job logs the
request, one console error and one alert and nothing else: no object URL and no
anchor is created, nothing is clicked, the document and the registry of object URLs
are as before, and the button is enabled with its original content. -/
theorem export_bad_status_alerts_once (w : World) (r : Response)
    (throws : DownloadStep → Bool) (h : r.ok = false) :
    logSince w (exportFlow { fetchResult := Except.ok r, throws := throws } w) =
      [Effect.fetch "/export-pdf",
       Effect.consoleError "Error exporting PDF:" "Error: Network response was not ok",
       Effect.alert "Failed to export PDF. Please try again."] ∧
    (exportFlow { fetchResult := Except.ok r, throws := throws } w).nodes = w.nodes ∧
    (exportFlow { fetchResult := Except.ok r, throws := throws } w).nextId = w.nextId ∧
    (exportFlow { fetchResult := Except.ok r, throws := throws } w).objectURLs =
      w.objectURLs ∧
    (exportFlow { fetchResult := Except.ok r, throws := throws } w).button =
      { innerHTML := w.button.innerHTML, disabled := false } := by
  have hflow : exportFlow { fetchResult := Except.ok r, throws := throws } w =
      onError w.button.innerHTML "Error: Network response was not ok" (exportClick w).2 := by
    simp [exportFlow, exportSettle, onResponse, h, exportClick]
  rw [hflow]
  refine ⟨?_, rfl, rfl, rfl, rfl⟩
  apply logSince_append
  simp [onError, exportClick]

/-- C5 for a response with status 500. -/
theorem export_bad_status_alerts_once_witness :
    logSince blankPage
        (exportFlow { fetchResult := Except.ok { status := 500, body := Except.ok [] },
                      throws := fun _ => false } blankPage) =
      [Effect.fetch "/export-pdf",
       Effect.consoleError "Error exporting PDF:" "Error: Network response was not ok",
       Effect.alert "Failed to export PDF. Please try again."] ∧
    (exportFlow { fetchResult := Except.ok { status := 500, body := Except.ok [] },
                  throws := fun _ => false } blankPage).button =
      { innerHTML := "Export PDF", disabled := false } :=
  ⟨(export_bad_status_alerts_once blankPage { status := 500, body := Except.ok [] }
      (fun _ => false) (by decide)).1,
   (export_bad_status_alerts_once blankPage { status := 500, body := Except.ok [] }
      (fun _ => false) (by decide)).2.2.2.2⟩

/-- C6: when the request resolves with a status in 200-299 and a readable body, and no
call of the download sequence throws, the job logs, in this order, the request, the
creation of an object URL for the body, the creation of one anchor, one click on that
anchor with `href` the object URL and download name `resume.pdf`, and the revocation of
that URL; no alert is logged; afterwards the URL is no longer live, the anchor is not
in the document, and the button is enabled with its original content. -/
theorem export_success_downloads_resume (w : World) (status : Nat) (blob : List Nat)
    (throws : DownloadStep → Bool)
    (hstatus : 200 ≤ status ∧ status ≤ 299) (hthrows : ∀ step, throws step = false) :
    logSince w (exportFlow
        { fetchResult := Except.ok { status := status, body := Except.ok blob },
          throws := throws } w) =
      [Effect.fetch "/export-pdf",
       Effect.createObjectURL blob (objectURL w.nextURL),
       Effect.createElement "a" w.nextId,
       Effect.click w.nextId (objectURL w.nextURL) "resume.pdf",
       Effect.revokeObjectURL (objectURL w.nextURL)] ∧
    (∀ e ∈ (exportFlow
        { fetchResult := Except.ok { status := status, body := Except.ok blob },
          throws := throws } w).nodes, e.id ≠ w.nextId) ∧
    (∀ p ∈ (exportFlow
        { fetchResult := Except.ok { status := status, body := Except.ok blob },
          throws := throws } w).objectURLs, p.1 ≠ objectURL w.nextURL) ∧
    (exportFlow
        { fetchResult := Except.ok { status := status, body := Except.ok blob },
          throws := throws } w).button =
      { innerHTML := w.button.innerHTML, disabled := false } := by
  have hok : Response.ok { status := status, body := Except.ok blob } = true := by
    simp [Response.ok, hstatus]
  have hflow : exportFlow
      { fetchResult := Except.ok { status := status, body := Except.ok blob },
        throws := throws } w =
      (onBlob { fetchResult := Except.ok { status := status, body := Except.ok blob },
                throws := throws } w.button.innerHTML blob (exportClick w).2).2 := by
    have hb := fun o b v => onBlob_no_throw
      { fetchResult := Except.ok { status := status, body := Except.ok blob },
        throws := throws } o b v hthrows
    simp [exportFlow, exportSettle, onResponse, hok, hb, exportClick]
  rw [hflow, onBlob_no_throw _ _ _ _ hthrows]
  refine ⟨?_, ?_, ?_, rfl⟩
  · apply logSince_append
    simp [exportClick]
  · intro e he
    simp only [List.mem_filter] at he
    simpa using he.2
  · intro p hp
    simp only [List.mem_filter] at hp
    simpa using hp.2

/-- C6 for a status 200 response whose body starts with the PDF signature. -/
theorem export_success_downloads_resume_witness :
    logSince blankPage (exportFlow
        { fetchResult := Except.ok { status := 200, body := Except.ok [0x25, 0x50, 0x44, 0x46] },
          throws := fun _ => false } blankPage) =
      [Effect.fetch "/export-pdf",
       Effect.createObjectURL [0x25, 0x50, 0x44, 0x46] (objectURL 0),
       Effect.createElement "a" 0,
       Effect.click 0 (objectURL 0) "resume.pdf",
       Effect.revokeObjectURL (objectURL 0)] :=
  (export_success_downloads_resume blankPage 200 [0x25, 0x50, 0x44, 0x46] (fun _ => false)
    (by decide) (fun _ => rfl)).1

/-! ## Timers: auxiliary facts -/

theorem runTimerAction_keeps_absent (i : Nat) (a : TimerAction) (w : World)
    (h : ∀ e ∈ w.nodes, e.id ≠ i) : ∀ e ∈ (runTimerAction a w).nodes, e.id ≠ i := by
  cases a with
  | removePreload node =>
    intro e he
    simp only [runTimerAction, removeChild, List.mem_filter] at he
    exact h e he.1
  | restoreTransition node =>
    intro e he
    simp only [runTimerAction, updateNode, List.mem_map] at he
    obtain ⟨e0, he0, rfl⟩ := he
    have := h e0 he0
    split <;> simpa using this

theorem runTimers_keeps_absent (i : Nat) (ts : List Timer) (w : World)
    (h : ∀ e ∈ w.nodes, e.id ≠ i) :
    ∀ e ∈ (ts.foldl (fun acc t => runTimerAction t.action acc) w).nodes, e.id ≠ i := by
  induction ts generalizing w with
  | nil => exact h
  | cons t rest ih => exact ih _ (runTimerAction_keeps_absent i t.action w h)

theorem runTimers_removes (i : Nat) (ts : List Timer) (w : World) (t : Timer)
    (ht : t ∈ ts) (ha : t.action = TimerAction.removePreload i) :
    ∀ e ∈ (ts.foldl (fun acc t => runTimerAction t.action acc) w).nodes, e.id ≠ i := by
  induction ts generalizing w with
  | nil => cases ht
  | cons t0 rest ih =>
    rcases List.mem_cons.mp ht with h0 | hrest
    · subst h0
      rw [List.foldl_cons]
      apply runTimers_keeps_absent
      intro e he
      rw [ha] at he
      simp only [runTimerAction, removeChild, List.mem_filter] at he
      simpa using he.2
    · exact ih _ hrest

theorem runTimers_clock (ts : List Timer) (w : World) :
    (ts.foldl (fun acc t => runTimerAction t.action acc) w).now = w.now ∧
    (ts.foldl (fun acc t => runTimerAction t.action acc) w).timers = w.timers := by
  induction ts generalizing w with
  | nil => exact ⟨rfl, rfl⟩
  | cons t rest ih =>
    have h := ih (runTimerAction t.action w)
    have h0 : (runTimerAction t.action w).now = w.now ∧
        (runTimerAction t.action w).timers = w.timers := by
      cases t.action <;> exact ⟨rfl, rfl⟩
    exact ⟨h.1.trans h0.1, h.2.trans h0.2⟩

theorem tick_clock (w : World) :
    (tick w).now = w.now + 1 ∧
    (tick w).timers = w.timers.filter (fun t => !decide (t.due ≤ w.now + 1)) := by
  unfold tick
  exact runTimers_clock _ _

/-- Once a `removePreload i` timer is pending with its due time within the next `ms`
milliseconds (or the element is gone already), the element is not in the document
after `ms` milliseconds. -/
theorem advance_removes (i : Nat) (ms : Nat) (w : World)
    (h : (∀ e ∈ w.nodes, e.id ≠ i) ∨
      ∃ t ∈ w.timers, t.action = TimerAction.removePreload i ∧ w.now < t.due ∧
        t.due ≤ w.now + ms) :
    ∀ e ∈ (advance ms w).nodes, e.id ≠ i := by
  induction ms generalizing w with
  | zero =>
    rcases h with h | ⟨t, _, _, h1, h2⟩
    · exact h
    · omega
  | succ n ih =>
    show ∀ e ∈ (advance n (tick w)).nodes, e.id ≠ i
    apply ih
    rcases h with h | ⟨t, ht, ha, h1, h2⟩
    · left
      unfold tick
      exact runTimers_keeps_absent i _ _ h
    · by_cases hd : t.due ≤ w.now + 1
      · left
        unfold tick
        apply runTimers_removes i _ _ t _ ha
        simp [List.mem_filter, ht, hd]
      · right
        refine ⟨t, ?_, ha, ?_, ?_⟩
        · rw [(tick_clock w).2]
          simp [List.mem_filter, ht, hd]
        · rw [(tick_clock w).1]
          omega
        · rw [(tick_clock w).1]
          omega

/-! ## Preload and touch-up: the claims -/

/-- C9, as stated, fails: on a page shown in the dark theme (before and after
`initTheme` has run), the element created by `preloadThemeStyles` carries the class
`dark`, the flag of the theme in effect and not of the alternate, light theme. -/
theorem preload_tagged_dark_on_dark_page :
    isDark darkPage = true ∧
    isDark (initTheme (preloadThemeStyles darkPage)) = true ∧
    (preloadThemeStyles darkPage).nodes = [preloadDiv darkPage] ∧
    classListContains (preloadDiv darkPage).classes "dark" = true := by
  decide

/-- C9, amended: whatever theme is in effect, `preloadThemeStyles` appends to the
document one element with the classes `dark hidden` (and so the alternate theme's flag
only on a light page) and registers its removal 100ms ahead; once 100ms have passed
the element is no longer in the document. -/
theorem preload_always_dark_and_removed (w : World) :
    (preloadDiv w).classes = ["dark", "hidden"] ∧
    classListContains (preloadDiv w).classes "dark" = true ∧
    (preloadThemeStyles w).nodes = w.nodes ++ [preloadDiv w] ∧
    (preloadThemeStyles w).timers =
      w.timers ++ [{ due := w.now + 100,
                     action := TimerAction.removePreload (preloadDiv w).id }] ∧
    (∀ e ∈ (advance 100 (preloadThemeStyles w)).nodes, e.id ≠ (preloadDiv w).id) := by
  refine ⟨rfl, rfl, rfl, rfl, ?_⟩
  apply advance_removes
  right
  refine ⟨{ due := w.now + 100, action := TimerAction.removePreload (preloadDiv w).id },
    ?_, rfl, ?_, ?_⟩
  · simp [preloadThemeStyles, setTimeout, appendChild]
  · show w.now < w.now + 100
    omega
  · exact Nat.le_refl _

set_option maxRecDepth 100000 in
/-- C8 fails on the code for a list that is both `ul.list-disc` and
`.theme-optimized-list` (element 0 of `listPage`): the toggle sets its transition to
`none`, and the 50ms timer of the first loop resets it to the empty value. The
optimized list that is not a bulleted list (element 1) keeps `none`, and the ordinary
bulleted list (element 2) is reset, as the claim says. -/
theorem optimized_bullet_list_transition_restored :
    transitionOf 0 (themeToggleClick listPage) = some "none" ∧
    transitionOf 0 (advance 49 (themeToggleClick listPage)) = some "none" ∧
    transitionOf 0 (advance 50 (themeToggleClick listPage)) = some "" ∧
    transitionOf 1 (advance 50 (themeToggleClick listPage)) = some "none" ∧
    transitionOf 2 (themeToggleClick listPage) = some "none" ∧
    transitionOf 2 (advance 50 (themeToggleClick listPage)) = some "" := by
  decide

end CvPage
